import Mathlib

/-!
Verification of the token-based authentication contract of the blog backend
(`auth.py` together with its configuration in `config.py`).

The embedding models:
* `Settings` — the process-wide configuration object from `config.py`
  (secret key, algorithm identifier, default token lifetime in minutes),
* claims mappings — Python dicts from claim name to JSON value, as
  association lists with dict-style lookup and update,
* JWT tokens — a signed token carries its claims together with the key and
  algorithm it was signed under; any other string is a malformed token,
* `jwt.decode` — the PyJWT decode path as invoked by `verify_access_token`
  (allowed-algorithm check, signature check, the `require: ["exp","sub"]`
  option, and `exp` validation against the current clock); every failure is
  one of the `jwt.InvalidTokenError` subclasses, which the caller collapses,
* `create_access_token` / `verify_access_token` — direct translations of the
  two functions in `auth.py`, with the clock (`datetime.now(UTC)`, in seconds
  since the epoch) passed explicitly,
* the pwdlib password-hash pair `hash_password` / `verify_password`, with the
  argon2 digest idealized as an injective keyed function (collision
  resistance taken as an axiom-free idealization of the primitive).
-/

/-- A JSON value that can appear in a claims mapping of this application:
a string (e.g. the `sub` claim) or an integer (e.g. the `exp` timestamp). -/
inductive JVal where
  | str (s : String)
  | int (n : Int)
deriving DecidableEq, Repr

/-- A claims mapping: a Python dict from claim name to value, modelled as an
association list where lookup returns the first binding of a key. -/
def Claims := List (String × JVal)
deriving DecidableEq, Repr

/-- Python `d.get(k)`: the value bound to `k`, or `None` when absent. -/
def Claims.get : Claims → String → Option JVal
  | [], _ => none
  | (k', v) :: rest, k => if k' = k then some v else Claims.get rest k

/-- Python `d.update({k: v})`: overwrite the binding of `k` in place if
present, otherwise append a new binding. -/
def Claims.update : Claims → String → JVal → Claims
  | [], k, v => [(k, v)]
  | (k', v') :: rest, k, v =>
      if k' = k then (k, v) :: rest else (k', v') :: Claims.update rest k v

/-- Python `d.copy()`: a fresh dict with the same bindings; mutating the copy
leaves the original untouched.  Under value semantics it is the same value. -/
def Claims.copy (d : Claims) : Claims := d

/-- Pydantic `SecretStr`: wraps a string; `get_secret_value()` reveals it. -/
structure SecretStr where
  value : String
deriving DecidableEq, Repr

/-- Pydantic `SecretStr.get_secret_value()`. -/
def SecretStr.get_secret_value (s : SecretStr) : String := s.value

/-- `config.py`: the `Settings` model, with the field defaults of the source
(values from a `.env` file may override them, so theorems quantify over
arbitrary settings and use `settings` only as the concrete default). -/
structure Settings where
  debug : Bool := true
  database_url : String := "sqlite+aiosqlite:///./blog.db"
  secret_key : SecretStr := ⟨"my-secret-key-2026"⟩
  algorithm : String := "HS256"
  access_token_expire_minutes : Int := 30
deriving DecidableEq, Repr

/-- `config.py`: `settings = Settings()`, the process-wide instance. -/
def settings : Settings := {}

/-- A JWT token string.  A well-formed token determines the claims it carries
and the key and algorithm of its signature; every other string is malformed
(fails base64/JSON decoding or has a damaged signature segment). -/
inductive Token where
  | signed (claims : Claims) (key : String) (alg : String)
  | malformed (raw : String)
deriving DecidableEq, Repr

/-- The claims carried by a token (`[]` for a malformed token). -/
def Token.claims : Token → Claims
  | .signed c _ _ => c
  | .malformed _ => []

/-- The `jwt.InvalidTokenError` subclasses raised by the PyJWT decode path
exercised by `verify_access_token`. -/
inductive JwtError where
  | DecodeError
  | InvalidAlgorithmError
  | InvalidSignatureError
  | MissingRequiredClaimError (claim : String)
  | ExpiredSignatureError
deriving DecidableEq, Repr

/-- Python `int(v)` on a claim value: an integer is itself; a decimal string
is parsed (`int("123") = 123`); anything else raises `ValueError`, which
PyJWT converts to a `DecodeError`. -/
def JVal.asInt : JVal → Option Int
  | .int n => some n
  | .str s => s.toInt?

/-- PyJWT `jwt.decode(token, key, algorithms, options={"require": require})`
at clock time `now`, for the options used by `auth.py`:
1. a malformed token raises `DecodeError`;
2. a token whose header algorithm is not in the allowed list raises
   `InvalidAlgorithmError`;
3. a signature made with a different key raises `InvalidSignatureError`;
4. each claim named in `require` must be present, else
   `MissingRequiredClaimError`;
5. if an `exp` claim is present it must convert to an integer timestamp and
   that timestamp must be strictly after `now`, else `ExpiredSignatureError`
   (PyJWT expires a token when `exp <= now`).
On success the claims mapping is returned. -/
def jwt_decode (tok : Token) (key : String) (algorithms : List String)
    (require : List String) (now : Int) : Except JwtError Claims :=
  match tok with
  | .malformed _ => .error .DecodeError
  | .signed claims tkey talg =>
    if talg ∈ algorithms then
      if tkey = key then
        match require.find? (fun c => (claims.get c).isNone) with
        | some c => .error (.MissingRequiredClaimError c)
        | none =>
          match claims.get "exp" with
          | none => .ok claims
          | some v =>
            match v.asInt with
            | none => .error .DecodeError
            | some e => if e ≤ now then .error .ExpiredSignatureError else .ok claims
      else .error .InvalidSignatureError
    else .error .InvalidAlgorithmError

/-- Python truthiness of a `timedelta | None` value: `None` and the zero
timedelta are falsy, every other timedelta is truthy. -/
def timedeltaTruthy : Option Int → Bool
  | none => false
  | some d => d != 0

/-- `auth.py` `create_access_token(data, expires_delta)`: copy the claims,
compute the absolute expiry (`now + expires_delta` when `expires_delta` is
truthy, else `now + access_token_expire_minutes` minutes), overwrite the
`exp` claim on the copy, and sign with the configured secret and algorithm.
`now` is `datetime.now(UTC)` and the timedelta is in seconds. -/
def create_access_token (data : Claims) (expires_delta : Option Int)
    (now : Int) (cfg : Settings) : Token :=
  let to_encode := Claims.copy data
  let expire : Int :=
    match expires_delta with
    | some d =>
        if d != 0 then now + d
        else now + cfg.access_token_expire_minutes * 60
    | none => now + cfg.access_token_expire_minutes * 60
  let to_encode := Claims.update to_encode "exp" (.int expire)
  Token.signed to_encode cfg.secret_key.get_secret_value cfg.algorithm

/-- `auth.py` `verify_access_token(token)`: decode with the configured secret
and algorithm, requiring the `exp` and `sub` claims; any
`jwt.InvalidTokenError` yields `None`, otherwise the value of the `sub`
claim is returned. -/
def verify_access_token (token : Token) (now : Int) (cfg : Settings) : Option JVal :=
  match jwt_decode token cfg.secret_key.get_secret_value [cfg.algorithm]
      ["exp", "sub"] now with
  | .error _ => none
  | .ok payload => payload.get "sub"

/-! ### Dict lemmas -/

theorem Claims.get_update_self (d : Claims) (k : String) (v : JVal) :
    (d.update k v).get k = some v := by
  induction d with
  | nil => simp [Claims.update, Claims.get]
  | cons hd tl ih =>
    obtain ⟨k', v'⟩ := hd
    by_cases h : k' = k
    · simp [Claims.update, h, Claims.get]
    · simp [Claims.update, h, Claims.get, ih]

theorem Claims.get_update_ne (d : Claims) (k k' : String) (v : JVal)
    (h : k ≠ k') : (d.update k v).get k' = d.get k' := by
  induction d with
  | nil => simp [Claims.update, Claims.get, h]
  | cons hd tl ih =>
    obtain ⟨k₀, v₀⟩ := hd
    by_cases h₀ : k₀ = k
    · subst h₀
      simp [Claims.update, Claims.get, h]
    · simp [Claims.update, h₀, Claims.get, ih]

/-! ### Shape of a successful verification -/

/-- Helper: a token signed with the configured key and algorithm, carrying a
`sub` claim and an integer `exp` claim strictly in the future, passes
`verify_access_token`, which returns the `sub` value. -/
theorem verify_signed_valid (c : Claims) (now : Int) (cfg : Settings)
    (sv : JVal) (e : Int)
    (hexp : c.get "exp" = some (.int e)) (hfut : now < e)
    (hsub : c.get "sub" = some sv) :
    verify_access_token
        (.signed c cfg.secret_key.get_secret_value cfg.algorithm) now cfg
      = some sv := by
  unfold verify_access_token jwt_decode
  simp [List.find?, hexp, hsub, JVal.asInt, not_le.mpr hfut]

/-- Helper: unfolding `create_access_token` when the timedelta is truthy
(present and non-zero): the expiry is `now + expires_delta`. -/
theorem create_access_token_truthy (data : Claims) (d now : Int)
    (cfg : Settings) (h : d ≠ 0) :
    create_access_token data (some d) now cfg
      = Token.signed (Claims.update data "exp" (.int (now + d)))
          cfg.secret_key.get_secret_value cfg.algorithm := by
  simp [create_access_token, Claims.copy, h]

/-- Helper: unfolding `create_access_token` when the timedelta is falsy
(`None` or zero): the expiry is `now` plus the configured default. -/
theorem create_access_token_falsy (data : Claims) (expires_delta : Option Int)
    (now : Int) (cfg : Settings) (h : timedeltaTruthy expires_delta = false) :
    create_access_token data expires_delta now cfg
      = Token.signed
          (Claims.update data "exp"
            (.int (now + cfg.access_token_expire_minutes * 60)))
          cfg.secret_key.get_secret_value cfg.algorithm := by
  cases expires_delta with
  | none => simp [create_access_token, Claims.copy]
  | some d =>
    simp [timedeltaTruthy] at h
    simp [create_access_token, Claims.copy, h]

/-- Helper: a token whose integer `exp` claim is not in the future is
rejected, whatever its other claims. -/
theorem verify_signed_expired (c : Claims) (now : Int) (cfg : Settings)
    (e : Int) (hexp : c.get "exp" = some (.int e)) (hpast : e ≤ now) :
    verify_access_token
        (.signed c cfg.secret_key.get_secret_value cfg.algorithm) now cfg
      = none := by
  unfold verify_access_token jwt_decode
  cases hsub : c.get "sub" with
  | none => simp [List.find?, hexp, hsub]
  | some sv => simp [List.find?, hexp, hsub, JVal.asInt, hpast]

/-- Helper: anatomy of a successful verification — the token must be signed
with the configured secret and algorithm, its `sub` claim is the returned
value, and its `exp` claim converts to an integer strictly after `now`. -/
theorem verify_eq_some_shape (tok : Token) (now : Int) (cfg : Settings)
    (v : JVal) (h : verify_access_token tok now cfg = some v) :
    ∃ c, tok = Token.signed c cfg.secret_key.get_secret_value cfg.algorithm ∧
      Claims.get c "sub" = some v ∧
      ∃ ev e, Claims.get c "exp" = some ev ∧ JVal.asInt ev = some e ∧ now < e := by
  cases tok with
  | malformed raw => simp [verify_access_token, jwt_decode] at h
  | signed c key alg =>
    refine ⟨c, ?_⟩
    by_cases halg : alg = cfg.algorithm
    case neg => simp [verify_access_token, jwt_decode, halg] at h
    case pos =>
      subst halg
      by_cases hkey : key = cfg.secret_key.get_secret_value
      case neg => simp [verify_access_token, jwt_decode, hkey] at h
      case pos =>
        subst hkey
        cases hexp : Claims.get c "exp" with
        | none => simp [verify_access_token, jwt_decode, List.find?, hexp] at h
        | some ev =>
          cases hsub : Claims.get c "sub" with
          | none =>
            simp [verify_access_token, jwt_decode, List.find?, hexp, hsub] at h
          | some sv =>
            cases hconv : JVal.asInt ev with
            | none =>
              simp [verify_access_token, jwt_decode, List.find?, hexp, hsub,
                hconv] at h
            | some e =>
              by_cases hle : e ≤ now
              case pos =>
                simp [verify_access_token, jwt_decode, List.find?, hexp, hsub,
                  hconv, hle] at h
              case neg =>
                simp [verify_access_token, jwt_decode, List.find?, hexp, hsub,
                  hconv, hle] at h
                exact ⟨rfl, by rw [h], ev, e, rfl, hconv, by omega⟩

/-- Helper: a token whose claims are missing `sub` or missing `exp` is never
accepted (a malformed token carries no claims at all). -/
theorem verify_missing_claim_none (tok : Token) (now : Int) (cfg : Settings)
    (h : Claims.get tok.claims "sub" = none ∨ Claims.get tok.claims "exp" = none) :
    verify_access_token tok now cfg = none := by
  cases hv : verify_access_token tok now cfg with
  | none => rfl
  | some v =>
    obtain ⟨c, htok, hsub, ev, e, hexp, -, -⟩ := verify_eq_some_shape tok now cfg v hv
    rcases h with h | h <;> rw [htok] at h <;> simp [Token.claims] at h <;>
      simp [h] at hsub hexp

/-! ### Claims -/

/-- C1: for every claims mapping that contains a `sub` claim, issuing a token
with a positive `expires_delta` and verifying it under the same settings at
any instant before the expiry returns that same subject value. -/
theorem C1_issue_verify_roundtrip (data : Claims) (v : JVal) (d now now' : Int)
    (cfg : Settings) (hsub : data.get "sub" = some v) (hd : 0 < d)
    (hbefore : now' < now + d) :
    verify_access_token (create_access_token data (some d) now cfg) now' cfg
      = some v := by
  rw [create_access_token_truthy data d now cfg (by omega)]
  apply verify_signed_valid
  · exact Claims.get_update_self data "exp" (.int (now + d))
  · exact hbefore
  · rw [Claims.get_update_ne data "exp" "sub" _ (by decide)]
    exact hsub

/-- C1 witness: issue for subject `"42"` with a 60-second ttl at time 0 and
verify immediately. -/
theorem C1_issue_verify_roundtrip_witness :
    Claims.get [("sub", JVal.str "42")] "sub" = some (.str "42") ∧
    (0 : Int) < 60 ∧ (0 : Int) < 0 + 60 ∧
    verify_access_token
        (create_access_token [("sub", JVal.str "42")] (some 60) 0 settings)
        0 settings
      = some (.str "42") :=
  ⟨by decide, by decide, by decide,
    C1_issue_verify_roundtrip [("sub", JVal.str "42")] (.str "42") 60 0 0
      settings (by decide) (by decide) (by decide)⟩

/-- C2 counterexample: the claim states that a zero `expires_delta` yields
`exp = now + 0` and immediate rejection, but Python's `if expires_delta:` is
falsy on a zero timedelta, so the code falls back to the configured default
ttl (30 minutes): the token issued at time 0 carries `exp = 1800` and is
accepted, not rejected. -/
theorem C2_zero_ttl_counterexample :
    Claims.get
        (Token.claims
          (create_access_token [("sub", JVal.str "42")] (some 0) 0 settings))
        "exp"
      = some (.int 1800) ∧
    ¬ Claims.get
        (Token.claims
          (create_access_token [("sub", JVal.str "42")] (some 0) 0 settings))
        "exp"
      = some (.int 0) ∧
    ¬ verify_access_token
        (create_access_token [("sub", JVal.str "42")] (some 0) 0 settings)
        0 settings
      = none := by
  refine ⟨by decide, by decide, ?_⟩
  intro h
  simp [create_access_token, Claims.copy, Claims.update, verify_access_token,
    jwt_decode, settings, SecretStr.get_secret_value, List.find?, Claims.get,
    JVal.asInt] at h

/-- C2 (amended): `create_access_token` sets `exp` to `now + expires_delta`
whenever a **non-zero** `expires_delta` is given; a zero `expires_delta` is
falsy and behaves exactly like omitting the argument, producing
`exp = now + default ttl`; consequently a token issued with a **negative**
`expires_delta` verifies to `None` immediately, while one issued with a zero
`expires_delta` carries the default ttl. -/
theorem C2_expiry_computation (data : Claims) (d now : Int) (cfg : Settings) :
    (d ≠ 0 →
      Claims.get (Token.claims (create_access_token data (some d) now cfg))
          "exp"
        = some (.int (now + d))) ∧
    create_access_token data (some 0) now cfg
      = create_access_token data none now cfg ∧
    Claims.get (Token.claims (create_access_token data none now cfg)) "exp"
      = some (.int (now + cfg.access_token_expire_minutes * 60)) ∧
    (d < 0 →
      verify_access_token (create_access_token data (some d) now cfg) now cfg
        = none) := by
  refine ⟨?_, ?_, ?_, ?_⟩
  · intro h
    rw [create_access_token_truthy data d now cfg h]
    exact Claims.get_update_self data "exp" (.int (now + d))
  · rw [create_access_token_falsy data (some 0) now cfg (by decide),
      create_access_token_falsy data none now cfg (by decide)]
  · rw [create_access_token_falsy data none now cfg (by decide)]
    exact Claims.get_update_self data "exp" _
  · intro h
    rw [create_access_token_truthy data d now cfg (by omega)]
    exact verify_signed_expired _ now cfg (now + d)
      (Claims.get_update_self data "exp" _) (by omega)

/-- C2 (amended) witness: at time 0 with the default settings, a token for
subject `"42"` issued with `expires_delta = -60` carries `exp = -60` and
verifies to `None`; one issued with `expires_delta = 0` carries the default
`exp = 1800`. -/
theorem C2_expiry_computation_witness :
    Claims.get
        (Token.claims
          (create_access_token [("sub", JVal.str "42")] (some (-60)) 0
            settings))
        "exp"
      = some (.int (0 + (-60))) ∧
    verify_access_token
        (create_access_token [("sub", JVal.str "42")] (some (-60)) 0 settings)
        0 settings
      = none ∧
    Claims.get
        (Token.claims
          (create_access_token [("sub", JVal.str "42")] none 0 settings))
        "exp"
      = some (.int (0 + settings.access_token_expire_minutes * 60)) :=
  ⟨(C2_expiry_computation [("sub", JVal.str "42")] (-60) 0 settings).1
      (by decide),
    (C2_expiry_computation [("sub", JVal.str "42")] (-60) 0 settings).2.2.2
      (by decide),
    (C2_expiry_computation [("sub", JVal.str "42")] (-60) 0 settings).2.2.1⟩

/-- C3: every failure of the PyJWT decode path — malformed token, wrong
algorithm, wrong signature, missing required claim, expired signature — is
collapsed by `verify_access_token` into the single result `None`; the
function is total (it returns an `Option`, never an exception). -/
theorem C3_failures_collapse_to_none (tok : Token) (now : Int) (cfg : Settings)
    (e : JwtError)
    (h : jwt_decode tok cfg.secret_key.get_secret_value [cfg.algorithm]
        ["exp", "sub"] now = .error e) :
    verify_access_token tok now cfg = none := by
  unfold verify_access_token
  rw [h]

/-- C3 witness: the malformed token `"garbage"` fails decoding with a
`DecodeError` and verifies to `None`. -/
theorem C3_failures_collapse_to_none_witness :
    jwt_decode (.malformed "garbage") settings.secret_key.get_secret_value
        [settings.algorithm] ["exp", "sub"] 0
      = .error .DecodeError ∧
    verify_access_token (.malformed "garbage") 0 settings = none :=
  ⟨rfl,
    C3_failures_collapse_to_none (.malformed "garbage") 0 settings .DecodeError
      rfl⟩

/-- Helper: whatever the `expires_delta`, `create_access_token` returns a
token signed with the configured secret and algorithm whose claims are the
input claims with some integer `exp` written over them. -/
theorem create_access_token_shape (data : Claims) (delta : Option Int)
    (now : Int) (cfg : Settings) :
    ∃ e, create_access_token data delta now cfg
      = Token.signed (Claims.update data "exp" (.int e))
          cfg.secret_key.get_secret_value cfg.algorithm := by
  cases delta with
  | none => exact ⟨_, create_access_token_falsy data none now cfg rfl⟩
  | some d =>
    by_cases hd : d = 0
    · subst hd
      exact ⟨_, create_access_token_falsy data (some 0) now cfg (by decide)⟩
    · exact ⟨_, create_access_token_truthy data d now cfg hd⟩

/-- C4 counterexample: a correctly signed token whose `sub` claim is the
empty string and whose `exp` lies in the future is accepted, and the empty
string is returned as the subject — the claimed non-emptiness of the
accepted subject does not hold (only presence of `sub` is checked). -/
theorem C4_empty_subject_accepted_counterexample :
    verify_access_token
        (.signed [("sub", JVal.str ""), ("exp", JVal.int 100)]
          "my-secret-key-2026" "HS256") 0 settings
      = some (.str "") ∧
    ¬ verify_access_token
        (.signed [("sub", JVal.str ""), ("exp", JVal.int 100)]
          "my-secret-key-2026" "HS256") 0 settings
      = none := by
  refine ⟨by decide, ?_⟩
  intro h
  simp [verify_access_token, jwt_decode, settings, SecretStr.get_secret_value,
    List.find?, Claims.get, JVal.asInt] at h

/-- C4 (amended): every token accepted by `verify_access_token` carries a
`sub` claim — whose value, possibly the empty string, is the returned
subject — and an `exp` claim whose integer value lies strictly in the
future at the time of the check; any token missing either claim is rejected
unconditionally. -/
theorem C4_acceptance_invariant (tok : Token) (now : Int) (cfg : Settings) :
    (∀ v, verify_access_token tok now cfg = some v →
      Claims.get tok.claims "sub" = some v ∧
      ∃ ev e, Claims.get tok.claims "exp" = some ev ∧ JVal.asInt ev = some e ∧
        now < e) ∧
    ((Claims.get tok.claims "sub" = none ∨ Claims.get tok.claims "exp" = none) →
      verify_access_token tok now cfg = none) := by
  constructor
  · intro v h
    obtain ⟨c, htok, hsub, ev, e, hexp, hconv, hfut⟩ :=
      verify_eq_some_shape tok now cfg v h
    rw [htok]
    exact ⟨hsub, ev, e, hexp, hconv, hfut⟩
  · exact verify_missing_claim_none tok now cfg

/-- C4 (amended) witness: a signed token for subject `"alice"` expiring at
time 100 is accepted at time 0 and exhibits the invariant; a signed token
with no `sub` claim is rejected. -/
theorem C4_acceptance_invariant_witness :
    (Claims.get
        (Token.claims
          (Token.signed [("sub", JVal.str "alice"), ("exp", JVal.int 100)]
            "my-secret-key-2026" "HS256")) "sub"
      = some (.str "alice") ∧
      ∃ ev e,
        Claims.get
            (Token.claims
              (Token.signed [("sub", JVal.str "alice"), ("exp", JVal.int 100)]
                "my-secret-key-2026" "HS256")) "exp"
          = some ev ∧ JVal.asInt ev = some e ∧ (0 : Int) < e) ∧
    verify_access_token
        (Token.signed [("exp", JVal.int 100)] "my-secret-key-2026" "HS256")
        0 settings
      = none :=
  ⟨(C4_acceptance_invariant
      (Token.signed [("sub", JVal.str "alice"), ("exp", JVal.int 100)]
        "my-secret-key-2026" "HS256") 0 settings).1 (.str "alice") (by decide),
    (C4_acceptance_invariant
      (Token.signed [("exp", JVal.int 100)] "my-secret-key-2026" "HS256")
      0 settings).2 (Or.inl (by decide))⟩

/-- C5: a token issued under one settings object is rejected by
`verify_access_token` under any settings whose secret key or algorithm
differs, at every verification time. -/
theorem C5_key_and_algorithm_binding (data : Claims) (delta : Option Int)
    (now now' : Int) (cfg cfg' : Settings)
    (h : cfg.secret_key.get_secret_value ≠ cfg'.secret_key.get_secret_value ∨
      cfg.algorithm ≠ cfg'.algorithm) :
    verify_access_token (create_access_token data delta now cfg) now' cfg'
      = none := by
  obtain ⟨e, hc⟩ := create_access_token_shape data delta now cfg
  rw [hc]
  unfold verify_access_token jwt_decode
  rcases h with h | h
  · by_cases halg : cfg.algorithm = cfg'.algorithm
    · simp [halg, h]
    · simp [halg]
  · simp [h]

/-- C5 witness: a token issued under the default settings verifies to `None`
under a settings object with a different secret key, and likewise under one
with a different algorithm. -/
theorem C5_key_and_algorithm_binding_witness :
    verify_access_token
        (create_access_token [("sub", JVal.str "42")] (some 60) 0 settings)
        0 { settings with secret_key := ⟨"other-key"⟩ }
      = none ∧
    verify_access_token
        (create_access_token [("sub", JVal.str "42")] (some 60) 0 settings)
        0 { settings with algorithm := "HS512" }
      = none :=
  ⟨C5_key_and_algorithm_binding [("sub", JVal.str "42")] (some 60) 0 0
      settings { settings with secret_key := ⟨"other-key"⟩ }
      (Or.inl (by decide)),
    C5_key_and_algorithm_binding [("sub", JVal.str "42")] (some 60) 0 0
      settings { settings with algorithm := "HS512" } (Or.inr (by decide))⟩

/-- C6: a claims mapping with no `sub` claim is never rejected at issuance
(`create_access_token` is total), but the resulting token always verifies to
`None`: the required-claims check finds `sub` missing. -/
theorem C6_missing_subject_never_verifies (data : Claims) (delta : Option Int)
    (now now' : Int) (cfg : Settings) (h : data.get "sub" = none) :
    verify_access_token (create_access_token data delta now cfg) now' cfg
      = none := by
  obtain ⟨e, hc⟩ := create_access_token_shape data delta now cfg
  rw [hc]
  apply verify_missing_claim_none
  left
  simpa [Token.claims, Claims.get_update_ne data "exp" "sub" _ (by decide)]
    using h

/-- C6 witness: the mapping `{"role": "admin"}` has no `sub`; the token
issued from it at time 0 with a 60-second ttl verifies to `None`. -/
theorem C6_missing_subject_never_verifies_witness :
    Claims.get [("role", JVal.str "admin")] "sub" = none ∧
    verify_access_token
        (create_access_token [("role", JVal.str "admin")] (some 60) 0 settings)
        0 settings
      = none :=
  ⟨by decide,
    C6_missing_subject_never_verifies [("role", JVal.str "admin")] (some 60)
      0 0 settings (by decide)⟩

/-! ### Password hashing (`pwdlib`) -/

/-- Model of the hash string produced by pwdlib's recommended scheme
(argon2): it embeds the salt drawn at hashing time and a digest determined
by the salt and the password. -/
structure Argon2Hash where
  salt : Nat
  digest : String
deriving DecidableEq, Repr

/-- The argon2 digest, idealized as an injective function of the password
for each fixed salt — the axiom-free rendering of the primitive's collision
resistance (the cryptographic core cannot itself be embedded). -/
def argon2_digest (salt : Nat) (password : String) : String :=
  toString salt ++ "$" ++ password

theorem string_append_left_cancel {a b c : String} (h : a ++ b = a ++ c) :
    b = c := by
  have hdata : b.data = c.data := by
    have h2 := congrArg String.data h
    simpa [String.data_append] using h2
  exact congrArg String.mk hdata

theorem argon2_digest_inj (salt : Nat) {p q : String}
    (h : argon2_digest salt p = argon2_digest salt q) : p = q := by
  unfold argon2_digest at h
  exact string_append_left_cancel h

/-- pwdlib `PasswordHash.hash`: draw a salt (passed explicitly here, since
the library draws it randomly per call) and store it with the digest. -/
def password_hash_hash (salt : Nat) (password : String) : Argon2Hash :=
  ⟨salt, argon2_digest salt password⟩

/-- pwdlib `PasswordHash.verify`: recompute the digest of the candidate
under the stored salt and compare with the stored digest. -/
def password_hash_verify (plain : String) (hashed : Argon2Hash) : Bool :=
  argon2_digest hashed.salt plain == hashed.digest

/-- `auth.py` `hash_password`. -/
def hash_password (password : String) (salt : Nat) : Argon2Hash :=
  password_hash_hash salt password

/-- `auth.py` `verify_password`. -/
def verify_password (plain_password : String) (hashed_password : Argon2Hash) :
    Bool :=
  password_hash_verify plain_password hashed_password

/-- C7: for every non-empty plaintext, verifying it against its own hash
returns `true`, and verifying any other plaintext against that hash returns
`false` — a boolean in both cases, never an exception. -/
theorem C7_password_hash_roundtrip (plain other : String) (salt : Nat)
    (hne : plain ≠ "") :
    verify_password plain (hash_password plain salt) = true ∧
    (other ≠ plain → verify_password other (hash_password plain salt) = false) := by
  constructor
  · simp [verify_password, password_hash_verify, hash_password,
      password_hash_hash]
  · intro hother
    simp only [verify_password, password_hash_verify, hash_password,
      password_hash_hash, beq_eq_false_iff_ne, ne_eq]
    intro h
    exact hother (argon2_digest_inj salt h)

/-- C7 witness: `"hunter42"` verifies against its own hash and `"wrong"`
does not. -/
theorem C7_password_hash_roundtrip_witness :
    verify_password "hunter42" (hash_password "hunter42" 7) = true ∧
    verify_password "wrong" (hash_password "hunter42" 7) = false :=
  ⟨(C7_password_hash_roundtrip "hunter42" "wrong" 7 (by decide)).1,
    (C7_password_hash_roundtrip "hunter42" "wrong" 7 (by decide)).2
      (by decide)⟩

/-! ### State-passing renderings -/

/-- The process-wide state visible to `auth.py`: the immutable `settings`
object and the clock read by `datetime.now(UTC)` / PyJWT. -/
structure AuthProcessState where
  settings : Settings
  clock : Int
deriving DecidableEq, Repr

/-- State-passing rendering of `verify_access_token`: the body only calls
`jwt.decode` on its argument and the process state, and writes nothing. -/
def verify_access_token_st (token : Token) (st : AuthProcessState) :
    Option JVal × AuthProcessState :=
  (verify_access_token token st.clock st.settings, st)

/-- C8: verification is deterministic and idempotent — it leaves the process
state unchanged, so running it twice from the same state returns the
identical result, and its outcome is the pure function of token, clock and
settings. -/
theorem C8_verify_deterministic_idempotent (token : Token)
    (st : AuthProcessState) :
    (verify_access_token_st token st).2 = st ∧
    verify_access_token_st token ((verify_access_token_st token st).2)
      = verify_access_token_st token st ∧
    (verify_access_token_st token st).1
      = verify_access_token token st.clock st.settings :=
  ⟨rfl, rfl, rfl⟩

/-- State-passing rendering of `create_access_token`: alongside the token it
returns the final contents of the caller's `data` dict.  The body writes the
`exp` claim only into the copy `to_encode`, never into `data`. -/
def create_access_token_st (data : Claims) (expires_delta : Option Int)
    (st : AuthProcessState) : Token × Claims :=
  let to_encode := Claims.copy data
  let expire : Int :=
    match expires_delta with
    | some d =>
        if d != 0 then st.clock + d
        else st.clock + st.settings.access_token_expire_minutes * 60
    | none => st.clock + st.settings.access_token_expire_minutes * 60
  let to_encode := Claims.update to_encode "exp" (.int expire)
  (Token.signed to_encode st.settings.secret_key.get_secret_value
    st.settings.algorithm, data)

/-- C9: issuance has no side effect on its input — the caller's claims
mapping comes back unchanged (in particular `exp` is written only into the
internal copy), the issued token agrees with the pure function of the
inputs, and the token's claims differ from the input mapping at `exp`
alone. -/
theorem C9_issuance_no_side_effects (data : Claims) (delta : Option Int)
    (st : AuthProcessState) :
    (create_access_token_st data delta st).2 = data ∧
    (create_access_token_st data delta st).1
      = create_access_token data delta st.clock st.settings ∧
    ∀ k, k ≠ "exp" →
      Claims.get
          (Token.claims (create_access_token data delta st.clock st.settings))
          k
        = Claims.get data k := by
  refine ⟨rfl, rfl, ?_⟩
  intro k hk
  obtain ⟨e, hc⟩ := create_access_token_shape data delta st.clock st.settings
  rw [hc]
  simpa [Token.claims] using
    Claims.get_update_ne data "exp" k (.int e) (fun h => hk h.symm)

/-- C10: a correctly signed token whose `exp` claim is strictly in the
future and whose `sub` claim is present with the empty string as value is
accepted, and the empty string is returned as the authenticated subject. -/
theorem C10_empty_subject_accepted (c : Claims) (now e : Int) (cfg : Settings)
    (hsub : c.get "sub" = some (.str ""))
    (hexp : c.get "exp" = some (.int e)) (hfut : now < e) :
    verify_access_token
        (.signed c cfg.secret_key.get_secret_value cfg.algorithm) now cfg
      = some (.str "") :=
  verify_signed_valid c now cfg (.str "") e hexp hfut hsub

/-- C10 witness: the signed token with claims
`{"sub": "", "exp": 100}` is accepted at time 0 with subject `""`. -/
theorem C10_empty_subject_accepted_witness :
    Claims.get [("sub", JVal.str ""), ("exp", JVal.int 100)] "sub"
      = some (.str "") ∧
    Claims.get [("sub", JVal.str ""), ("exp", JVal.int 100)] "exp"
      = some (.int 100) ∧
    verify_access_token
        (.signed [("sub", JVal.str ""), ("exp", JVal.int 100)]
          settings.secret_key.get_secret_value settings.algorithm) 0 settings
      = some (.str "") :=
  ⟨by decide, by decide,
    C10_empty_subject_accepted [("sub", JVal.str ""), ("exp", JVal.int 100)]
      0 100 settings (by decide) (by decide) (by decide)⟩
